import Mathlib

/-!
Verification of the PGMAM-Repairs improvement-loop controller
(`plex_improvement/scripts/loop_coordinator.py`,
`plex_improvement/scripts/compare_metrics.py`,
`plex_improvement/scripts/state_manager.py`) against its natural-language
specification.

The Python code is shallowly embedded: metric dictionaries become the
`Metrics` structure (every parsed report carries exactly these keys, so
`dict.get(key, 0)` is plain field access), floats become `ℚ`, Python's
`round(x, 2)` becomes `round2` (the half-to-even tie behaviour of Python's
`round` is irrelevant here: no value rounded in any theorem sits on a
half-cent tie), JSON documents become the inductive `JVal`, and fallible
calls return `Except`.
-/

/-- One parsed metrics snapshot, as produced by
`LoopCoordinator.parse_aggregation_report` / `MetricComparison.parse_report`
(the `agent_stats` sub-dictionary is never read by any function verified
here and is omitted). -/
structure Metrics where
  total_search_ops : Nat
  titles_found : Nat
  title_failures : Nat
  model_errors : Nat
  url_errors : Nat
deriving DecidableEq, Repr

/-- The sum `title_failures + url_errors + model_errors`, the three-way error sum the
coordinator computes in `calculate_progress`, `detect_plateau`,
`calculate_improvement` and `calculate_overall_improvement`. -/
def errorSum (m : Metrics) : Nat :=
  m.title_failures + m.url_errors + m.model_errors

/-- A JSON value, for modelling `json.dump` / `json.load`.  Serializing and
re-parsing is the identity on such trees, so the state files are modelled
directly as `JVal` documents. -/
inductive JVal where
  | null : JVal
  | num : Int → JVal
  | str : String → JVal
  | arr : List JVal → JVal
  | obj : List (String × JVal) → JVal

/-- Python's `round(q, 2)`. -/
def round2 (q : ℚ) : ℚ := ((round (q * 100) : ℤ) : ℚ) / 100

/-- One entry of `state['iteration_history']`, as appended by
`LoopCoordinator.record_iteration`.  `record_iteration` stores
`state['current_metrics']` as the snapshot; by the time any record is
appended the loop has already set `current_metrics` from an aggregation, so
the snapshot is always an actual metrics dictionary. -/
structure IterationRecord where
  iteration : Nat
  phase : String
  timestamp : String
  results : JVal
  metrics_snapshot : Metrics

/-- The coordinator state dictionary built in `LoopCoordinator.__init__`. -/
structure RunState where
  iteration : Nat
  max_iterations : Nat
  baseline_metrics : Option Metrics
  current_metrics : Option Metrics
  iteration_history : List IterationRecord
  fixes_attempted : List String
  fixes_successful : List String
  fixes_failed : List String
  exit_condition : Option String
  start_time : String

/-- The fresh state `LoopCoordinator.__init__` builds when no state file
exists (`start_time` is the wall-clock timestamp, passed in here). -/
def freshState (start_time : String) : RunState :=
  { iteration := 0
    max_iterations := 10
    baseline_metrics := none
    current_metrics := none
    iteration_history := []
    fixes_attempted := []
    fixes_successful := []
    fixes_failed := []
    exit_condition := none
    start_time := start_time }

/-- The progress dictionary returned by `LoopCoordinator.calculate_progress`. -/
structure Progress where
  total_error_reduction : ℚ
  success_rate_improvement : ℚ
  iterations : Nat
  fixes_successful : Nat
  fixes_failed : Nat
  baseline_errors : Nat
  current_errors : Nat
deriving DecidableEq, Repr

/-- Embeds `LoopCoordinator.calculate_progress`.  The Python scan that assigns
`first_agg` the first aggregation record and `latest_agg` the last one (both
`None` exactly when no aggregation record exists) is rendered through
`head?` / `getLast?` of the filtered history. -/
def calculate_progress (s : RunState) : Option Progress :=
  if s.iteration_history.length < 2 then none
  else
    let aggs := s.iteration_history.filter fun r => r.phase == "aggregation"
    match aggs.head?, aggs.getLast? with
    | some first_agg, some latest_agg =>
      let baseline_errors := errorSum first_agg.metrics_snapshot
      let current_errors := errorSum latest_agg.metrics_snapshot
      let error_reduction : ℚ :=
        if baseline_errors > 0 then
          (((baseline_errors : ℚ) - (current_errors : ℚ)) / (baseline_errors : ℚ)) * 100
        else 0
      let baseline_searches := first_agg.metrics_snapshot.total_search_ops
      let current_searches := latest_agg.metrics_snapshot.total_search_ops
      let baseline_success_rate : ℚ :=
        if baseline_searches > 0 then
          (((baseline_searches : ℚ) - (baseline_errors : ℚ)) / (baseline_searches : ℚ)) * 100
        else 0
      let current_success_rate : ℚ :=
        if current_searches > 0 then
          (((current_searches : ℚ) - (current_errors : ℚ)) / (current_searches : ℚ)) * 100
        else 0
      let success_improvement := current_success_rate - baseline_success_rate
      some
        { total_error_reduction := round2 error_reduction
          success_rate_improvement := round2 success_improvement
          iterations := aggs.length
          fixes_successful := s.fixes_successful.length
          fixes_failed := s.fixes_failed.length
          baseline_errors := baseline_errors
          current_errors := current_errors }
    | _, _ => none

/-- Embeds `LoopCoordinator.detect_plateau`.  The `progress` argument is accepted
and ignored exactly as in the source.  `recent` is Python's
`agg_results[-2:]`; the `improvements` list collects the percentage drop of
each adjacent pair of `recent` whose earlier error sum is positive. -/
def detect_plateau (s : RunState) (_progress : Option Progress) : Bool :=
  if s.iteration_history.length < 3 then false
  else
    let agg_results := s.iteration_history.filter fun r => r.phase == "aggregation"
    if agg_results.length < 2 then false
    else
      let recent_iterations := agg_results.drop (agg_results.length - 2)
      let improvements : List ℚ :=
        (recent_iterations.zip recent_iterations.tail).filterMap fun pc =>
          let prev_errors := errorSum pc.1.metrics_snapshot
          let curr_errors := errorSum pc.2.metrics_snapshot
          if prev_errors > 0 then
            some ((((prev_errors : ℚ) - (curr_errors : ℚ)) / (prev_errors : ℚ)) * 100)
          else none
      if improvements.length ≥ 2 then improvements.all fun imp => decide (imp < 5)
      else false

/-- Embeds `LoopCoordinator.detect_regression`. -/
def detect_regression (progress : Option Progress) : Bool :=
  match progress with
  | none => false
  | some p => decide (p.total_error_reduction < -5)

/-- Embeds `LoopCoordinator.has_more_fixes` — the source's acknowledged placeholder
that only consults the iteration budget. -/
def has_more_fixes (s : RunState) : Bool :=
  s.iteration < s.max_iterations

/-- Embeds `LoopCoordinator.should_exit`: returns the (possibly updated) state
together with the `(should_exit, reason)` pair the Python method returns;
setting `state['exit_condition']` is the method's side effect. -/
def should_exit (s : RunState) : RunState × Bool × Option String :=
  let progress := calculate_progress s
  if s.iteration ≥ s.max_iterations then
    ({ s with exit_condition := some "max_iterations_reached" }, true,
      some "Maximum iterations reached")
  else if !(has_more_fixes s) then
    ({ s with exit_condition := some "all_fixes_attempted" }, true,
      some "All identified fixes have been attempted")
  else if detect_plateau s progress then
    ({ s with exit_condition := some "plateau_detected" }, true,
      some "Progress has plateaued - no significant improvement in last 2 iterations")
  else if (match progress with
           | some p => decide (p.total_error_reduction ≥ 90)
           | none => false) then
    ({ s with exit_condition := some "success" }, true,
      some "Target improvement achieved (90%+ error reduction)")
  else if detect_regression progress then
    ({ s with exit_condition := some "regression_detected" }, true,
      some "System performance has regressed - stopping")
  else (s, false, none)

/-- The improvement pair computed by `LoopCoordinator.calculate_improvement`. -/
structure Improvement where
  error_reduction : ℚ
  success_rate_improvement : ℚ
deriving DecidableEq, Repr

/-- Embeds `LoopCoordinator.calculate_improvement`. -/
def calculate_improvement (baseline current : Metrics) : Improvement :=
  let baseline_errors := errorSum baseline
  let current_errors := errorSum current
  let error_reduction : ℚ :=
    if baseline_errors > 0 then
      (((baseline_errors : ℚ) - (current_errors : ℚ)) / (baseline_errors : ℚ)) * 100
    else 0
  let baseline_searches := baseline.total_search_ops
  let current_searches := current.total_search_ops
  let baseline_success : ℚ :=
    if baseline_searches > 0 then
      (((baseline_searches : ℚ) - (baseline_errors : ℚ)) / (baseline_searches : ℚ)) * 100
    else 0
  let current_success : ℚ :=
    if current_searches > 0 then
      (((current_searches : ℚ) - (current_errors : ℚ)) / (current_searches : ℚ)) * 100
    else 0
  { error_reduction := round2 error_reduction
    success_rate_improvement := round2 (current_success - baseline_success) }

/-- JSON serialization of a metrics dictionary. -/
def metricsToJson (m : Metrics) : JVal :=
  .obj [("total_search_ops", .num m.total_search_ops),
        ("titles_found", .num m.titles_found),
        ("title_failures", .num m.title_failures),
        ("model_errors", .num m.model_errors),
        ("url_errors", .num m.url_errors)]

/-- JSON serialization of an optional metrics dictionary (`None` → `null`). -/
def optMetricsToJson : Option Metrics → JVal
  | none => .null
  | some m => metricsToJson m

/-- JSON serialization of one iteration record. -/
def recordToJson (r : IterationRecord) : JVal :=
  .obj [("iteration", .num r.iteration),
        ("phase", .str r.phase),
        ("timestamp", .str r.timestamp),
        ("results", r.results),
        ("metrics_snapshot", metricsToJson r.metrics_snapshot)]

/-- JSON serialization of the coordinator state dictionary, as
`json.dump(..., indent=2, default=str)` renders it. -/
def stateToJson (s : RunState) : JVal :=
  .obj [("iteration", .num s.iteration),
        ("max_iterations", .num s.max_iterations),
        ("baseline_metrics", optMetricsToJson s.baseline_metrics),
        ("current_metrics", optMetricsToJson s.current_metrics),
        ("iteration_history", .arr (s.iteration_history.map recordToJson)),
        ("fixes_attempted", .arr (s.fixes_attempted.map .str)),
        ("fixes_successful", .arr (s.fixes_successful.map .str)),
        ("fixes_failed", .arr (s.fixes_failed.map .str)),
        ("exit_condition",
          match s.exit_condition with
          | none => .null
          | some c => .str c),
        ("start_time", .str s.start_time)]

/-- Embeds `LoopCoordinator.save_state`: the JSON document written to
`loop_state.json` wraps the coordinator state under `coordinator_state`
next to `saved_at` and `reason`. -/
def save_state (s : RunState) (saved_at reason : String) : JVal :=
  .obj [("saved_at", .str saved_at),
        ("reason", .str reason),
        ("coordinator_state", stateToJson s)]

/-- Embeds `LoopCoordinator.load_state`: `json.load(f)` hands back the parsed
document as a whole, which the method returns unchanged. -/
def load_state (fileContents : JVal) : JVal :=
  fileContents

/-- Key lookup in a JSON object (Python's `doc['key']` / `doc.get('key')`);
`none` on a missing key or a non-object. -/
def jlookup (v : JVal) (key : String) : Option JVal :=
  match v with
  | .obj fields => (fields.find? fun kv => kv.1 == key).map fun kv => kv.2
  | _ => none

/-- Embeds `StateManager.save_state` (`state_manager.py`): wraps its state
dictionary (modelled opaquely as a `JVal`) under the key `state`. -/
def stateManagerSave (state : JVal) (saved_at reason : String) : JVal :=
  .obj [("saved_at", .str saved_at),
        ("reason", .str reason),
        ("state", state)]

/-- Embeds `StateManager.load_state`: reads the document back and keeps
`data.get('state', {})` — unlike `LoopCoordinator.load_state`, it unwraps. -/
def stateManagerLoad (fileContents : JVal) : JVal :=
  (jlookup fileContents "state").getD (.obj [])

/-- A fix candidate as parsed from a diagnostic report by
`LoopCoordinator.parse_diagnostic_report`. -/
structure FixCandidate where
  name : String
  priority : String
  expected_improvement : String

/-- Outcome classification of `LoopCoordinator.execute_implementation`. -/
inductive ImplStatus where
  | noFixes : ImplStatus
  | failed : String → ImplStatus
  | success : String → ImplStatus

/-- State effect of `LoopCoordinator.execute_implementation`: filter the
diagnosed fixes to pending ones (HIGH priority, name not yet in
`fixes_attempted`), take the first, and either record an implementation
failure into `fixes_failed` (leaving `fixes_attempted` untouched) or record
the fix into `fixes_attempted`.  `implOk` is the collaborator's exit status. -/
def execute_implementation (s : RunState) (fixes : List FixCandidate)
    (implOk : Bool) : RunState × ImplStatus :=
  let pending_fixes := fixes.filter fun f =>
    f.priority == "HIGH" && !(s.fixes_attempted.contains f.name)
  match pending_fixes with
  | [] => (s, .noFixes)
  | fix_to_implement :: _ =>
    if implOk then
      ({ s with fixes_attempted := s.fixes_attempted ++ [fix_to_implement.name] },
        .success fix_to_implement.name)
    else
      ({ s with fixes_failed := s.fixes_failed ++ [fix_to_implement.name] },
        .failed fix_to_implement.name)

/-- State effect of `LoopCoordinator.execute_testing` once a test report
with the given decision has been parsed: `KEEP` records the fix into
`fixes_successful`, `ROLLBACK` into `fixes_failed`. -/
def execute_testing (s : RunState) (fix_name decision : String) : RunState :=
  if decision == "KEEP" then
    { s with fixes_successful := s.fixes_successful ++ [fix_name] }
  else if decision == "ROLLBACK" then
    { s with fixes_failed := s.fixes_failed ++ [fix_name] }
  else s

/-- The external inputs of one implement/test pass of the main loop:
the diagnosed candidates, whether the implementation collaborator
succeeded, whether the test infrastructure ran, and the parsed decision. -/
structure CycleInput where
  fixes : List FixCandidate
  implOk : Bool
  testOk : Bool
  decision : String

/-- One implement/test pass of the main loop, restricted to its effect on
the three fix-bookkeeping lists: `no_fixes` and `failed` both skip testing
(the `continue` branches of `main`), a successful implementation is tested
when the test infrastructure runs. -/
def implement_test_cycle (s : RunState) (c : CycleInput) : RunState :=
  match execute_implementation s c.fixes c.implOk with
  | (s', .noFixes) => s'
  | (s', .failed _) => s'
  | (s', .success fix_name) =>
    if c.testOk then execute_testing s' fix_name c.decision else s'

/-- A whole sequence of implement/test passes. -/
def runCycles (s : RunState) (cs : List CycleInput) : RunState :=
  cs.foldl implement_test_cycle s

/-- The parsed metrics dictionaries hold exactly the five counters, so
`self.baseline.get(metric_name, 0)` in `MetricComparison.compare_metric`
is this lookup (unknown keys fall back to the `get` default `0`). -/
def metricValue (m : Metrics) (metric_name : String) : Nat :=
  if metric_name == "total_search_ops" then m.total_search_ops
  else if metric_name == "titles_found" then m.titles_found
  else if metric_name == "title_failures" then m.title_failures
  else if metric_name == "model_errors" then m.model_errors
  else if metric_name == "url_errors" then m.url_errors
  else 0

/-- One row of `MetricComparison.compare_metric`. -/
structure ComparisonResult where
  metric : String
  baseline : Nat
  current : Nat
  change : Int
  percent_change : ℚ
  improved : Bool
deriving DecidableEq, Repr

/-- Embeds `MetricComparison.compare_metric`. -/
def compare_metric (baselineM currentM : Metrics) (metric_name : String) :
    ComparisonResult :=
  let baseline_val := metricValue baselineM metric_name
  let current_val := metricValue currentM metric_name
  let change : Int := (current_val : Int) - (baseline_val : Int)
  let percent_change : ℚ :=
    if baseline_val == 0 then (if current_val > 0 then 100 else 0)
    else ((change : ℚ) / (baseline_val : ℚ)) * 100
  { metric := metric_name
    baseline := baseline_val
    current := current_val
    change := change
    percent_change := round2 percent_change
    improved := current_val < baseline_val }

/-- The fixed metric list of `MetricComparison.generate_comparison_report`. -/
def metrics_to_compare : List String :=
  ["total_search_ops", "titles_found", "title_failures", "model_errors", "url_errors"]

/-- Embeds `MetricComparison.generate_comparison_report` (its returned list;
printing is elided). -/
def generate_comparison_report (baselineM currentM : Metrics) :
    List ComparisonResult :=
  metrics_to_compare.map (compare_metric baselineM currentM)

/-- The dictionary returned by `MetricComparison.calculate_overall_improvement`. -/
structure OverallImprovement where
  baseline_errors : Nat
  current_errors : Nat
  error_reduction : ℚ
  baseline_success_rate : ℚ
  current_success_rate : ℚ
  success_rate_improvement : ℚ
deriving DecidableEq, Repr

/-- Embeds `MetricComparison.calculate_overall_improvement`. -/
def calculate_overall_improvement (baselineM currentM : Metrics) :
    OverallImprovement :=
  let baseline_errors := errorSum baselineM
  let current_errors := errorSum currentM
  let baseline_searches := baselineM.total_search_ops
  let current_searches := currentM.total_search_ops
  let error_reduction : ℚ :=
    if baseline_errors > 0 then
      (((baseline_errors : ℚ) - (current_errors : ℚ)) / (baseline_errors : ℚ)) * 100
    else 0
  let baseline_success : ℚ :=
    if baseline_searches > 0 then
      (((baseline_searches : ℚ) - (baseline_errors : ℚ)) / (baseline_searches : ℚ)) * 100
    else 0
  let current_success : ℚ :=
    if current_searches > 0 then
      (((current_searches : ℚ) - (current_errors : ℚ)) / (current_searches : ℚ)) * 100
    else 0
  { baseline_errors := baseline_errors
    current_errors := current_errors
    error_reduction := round2 error_reduction
    baseline_success_rate := round2 baseline_success
    current_success_rate := round2 current_success
    success_rate_improvement := round2 (current_success - baseline_success) }

/-- Embeds `SuccessEvaluator.baseline_value`: scan of `comparison_results`. -/
def baseline_value (comparison_results : List ComparisonResult)
    (metric_name : String) : Nat :=
  match comparison_results.find? fun result => result.metric == metric_name with
  | some result => result.baseline
  | none => 0

/-- Embeds `SuccessEvaluator.current_value`. -/
def current_value (comparison_results : List ComparisonResult)
    (metric_name : String) : Nat :=
  match comparison_results.find? fun result => result.metric == metric_name with
  | some result => result.current
  | none => 0

/-- Embeds `SuccessEvaluator.check_error_reduction` — the only success check that
declares a `threshold` parameter. -/
def check_error_reduction (overall : OverallImprovement) (threshold : ℚ) : Bool :=
  decide (overall.error_reduction ≥ threshold)

/-- Embeds `SuccessEvaluator.check_no_new_errors`: despite its comment, its loop
ranges over the one-element list `['model_errors']` only. -/
def check_no_new_errors (comparison_results : List ComparisonResult) : Bool :=
  (["model_errors"] : List String).all fun metric =>
    !(baseline_value comparison_results metric == 0 &&
      current_value comparison_results metric > 0)

/-- Embeds `SuccessEvaluator.check_url_errors_reduced`. -/
def check_url_errors_reduced (comparison_results : List ComparisonResult) : Bool :=
  current_value comparison_results "url_errors" ≤
    baseline_value comparison_results "url_errors"

/-- Embeds `SuccessEvaluator.check_title_failures_reduced`. -/
def check_title_failures_reduced (comparison_results : List ComparisonResult) : Bool :=
  current_value comparison_results "title_failures" ≤
    baseline_value comparison_results "title_failures"

/-- Embeds `SuccessEvaluator.check_error_increase`. -/
def check_error_increase (overall : OverallImprovement) : Bool :=
  decide (overall.error_reduction < -10)

/-- Embeds `SuccessEvaluator.check_new_critical_errors`. -/
def check_new_critical_errors (comparison_results : List ComparisonResult) : Bool :=
  (["url_errors", "model_errors", "title_failures"] : List String).any fun metric =>
    baseline_value comparison_results metric > 0 &&
    current_value comparison_results metric > baseline_value comparison_results metric * 2

/-- A bound check method as stored in the indicator tables of
`SuccessEvaluator.evaluate_fix`: `withParam` is a method declaring a
threshold parameter, `noParam` one declaring none (its argument is the
value the method computes when legally called). -/
inductive CheckFun where
  | withParam : (ℚ → Bool) → CheckFun
  | noParam : Bool → CheckFun

/-- Python call with one positional argument: a method that declares no
parameter besides `self` raises `TypeError`. -/
def callCheck1 : CheckFun → ℚ → Except String Bool
  | .withParam f, t => .ok (f t)
  | .noParam _, _ =>
    .error "TypeError: check method takes no positional argument"

/-- Python call with no argument: a method that requires a threshold
parameter raises `TypeError`. -/
def callCheck0 : CheckFun → Except String Bool
  | .withParam _ =>
    .error "TypeError: check method missing required positional argument"
  | .noParam b => .ok b

/-- One entry of the indicator tables (`threshold` key is optional). -/
structure Indicator where
  name : String
  check : CheckFun
  threshold : Option ℚ

/-- The `success_indicators` table of `SuccessEvaluator.evaluate_fix`. -/
def success_indicators (comparison_results : List ComparisonResult)
    (overall : OverallImprovement) : List Indicator :=
  [{ name := "Error reduction >= 10%"
     check := .withParam (check_error_reduction overall)
     threshold := some 10 },
   { name := "No new error types introduced"
     check := .noParam (check_no_new_errors comparison_results)
     threshold := none },
   { name := "URL errors reduced (if applicable)"
     check := .noParam (check_url_errors_reduced comparison_results)
     threshold := none },
   { name := "Title failures reduced (if applicable)"
     check := .noParam (check_title_failures_reduced comparison_results)
     threshold := none }]

/-- The `failure_indicators` table of `SuccessEvaluator.evaluate_fix`. -/
def failure_indicators (comparison_results : List ComparisonResult)
    (overall : OverallImprovement) : List Indicator :=
  [{ name := "Error rate increased significantly (>10%)"
     check := .noParam (check_error_increase overall)
     threshold := none },
   { name := "New critical errors introduced"
     check := .noParam (check_new_critical_errors comparison_results)
     threshold := none }]

/-- The success-indicator loop of `evaluate_fix`:
`met = indicator['check'](indicator.get('threshold', 0))`, counting the
checks that came back true; the first `TypeError` aborts the evaluation. -/
def countSuccesses : List Indicator → Except String Nat
  | [] => .ok 0
  | indicator :: rest => do
    let met ← callCheck1 indicator.check (indicator.threshold.getD 0)
    let n ← countSuccesses rest
    pure (if met then n + 1 else n)

/-- The failure-indicator loop of `evaluate_fix`:
`detected = indicator['check']()`, OR-ing the detections. -/
def detectFailure : List Indicator → Except String Bool
  | [] => .ok false
  | indicator :: rest => do
    let detected ← callCheck0 indicator.check
    let r ← detectFailure rest
    pure (detected || r)

/-- The dictionary returned by `SuccessEvaluator.evaluate_fix`. -/
structure EvalResult where
  fix_name : String
  success_rate : ℚ
  success_count : Nat
  total_indicators : Nat
  failure_detected : Bool
  decision : String
  reason : String
deriving DecidableEq, Repr

/-- Embeds `SuccessEvaluator.evaluate_fix`, including the dynamic calling
convention of its indicator loops. -/
def evaluate_fix (comparison_results : List ComparisonResult)
    (overall : OverallImprovement) (fix_name : String) :
    Except String EvalResult := do
  let sIndicators := success_indicators comparison_results overall
  let fIndicators := failure_indicators comparison_results overall
  let total_indicators := sIndicators.length
  let success_count ← countSuccesses sIndicators
  let failure_detected ← detectFailure fIndicators
  let success_rate : ℚ :=
    if total_indicators > 0 then
      ((success_count : ℚ) / (total_indicators : ℚ)) * 100
    else 0
  let decisionReason : String × String :=
    if failure_detected then
      ("ROLLBACK", "Critical failure indicators detected")
    else if success_rate ≥ 75 then
      ("KEEP", "Met >=75% of success criteria")
    else if success_rate ≥ 50 then
      ("MONITOR", "Partial success - need more time or tweaking")
    else
      ("ROLLBACK", "Failed to meet minimum success criteria (<50%)")
  pure
    { fix_name := fix_name
      success_rate := round2 success_rate
      success_count := success_count
      total_indicators := total_indicators
      failure_detected := failure_detected
      decision := decisionReason.1
      reason := decisionReason.2 }

/-- Snapshot with 80 errors (50+20+10) out of 100 searches. -/
def mEighty : Metrics :=
  { total_search_ops := 100, titles_found := 50, title_failures := 50,
    model_errors := 10, url_errors := 20 }

/-- Snapshot with 100 errors out of 100 searches. -/
def mHundred : Metrics :=
  { total_search_ops := 100, titles_found := 0, title_failures := 80,
    model_errors := 10, url_errors := 10 }

/-- Snapshot with 5 errors out of 100 searches. -/
def mFive : Metrics :=
  { total_search_ops := 100, titles_found := 95, title_failures := 3,
    model_errors := 1, url_errors := 1 }

/-- The all-zero snapshot. -/
def mZero : Metrics :=
  { total_search_ops := 0, titles_found := 0, title_failures := 0,
    model_errors := 0, url_errors := 0 }

/-- Run state after iteration 1 recorded one aggregation and one diagnostics
record: two history entries but a single aggregation record. -/
def oneAggState : RunState :=
  { freshState "t0" with
    iteration := 1
    current_metrics := some mEighty
    baseline_metrics := some mEighty
    iteration_history :=
      [{ iteration := 1, phase := "aggregation", timestamp := "t1",
         results := .null, metrics_snapshot := mEighty },
       { iteration := 1, phase := "diagnostics", timestamp := "t2",
         results := .null, metrics_snapshot := mEighty }] }

/-- Run state at the iteration budget whose two aggregation snapshots show a
95% error reduction: both the max-iterations condition and the 90%+
success condition of `should_exit` hold here. -/
def budgetAndSuccessState : RunState :=
  { freshState "t0" with
    iteration := 10
    baseline_metrics := some mHundred
    current_metrics := some mFive
    iteration_history :=
      [{ iteration := 1, phase := "aggregation", timestamp := "t1",
         results := .null, metrics_snapshot := mHundred },
       { iteration := 10, phase := "aggregation", timestamp := "t2",
         results := .null, metrics_snapshot := mFive }] }

/-- Fresh run state at iteration 1: the iteration budget is not exhausted
and no other exit condition holds. -/
def earlyState : RunState :=
  { freshState "t0" with iteration := 1 }

/-- Run state with two all-zero aggregation snapshots (zero baseline error
sum). -/
def zeroErrorState : RunState :=
  { freshState "t0" with
    iteration := 2
    baseline_metrics := some mZero
    current_metrics := some mZero
    iteration_history :=
      [{ iteration := 1, phase := "aggregation", timestamp := "t1",
         results := .null, metrics_snapshot := mZero },
       { iteration := 2, phase := "aggregation", timestamp := "t2",
         results := .null, metrics_snapshot := mZero }] }

/-- A HIGH-priority fix candidate named F. -/
def fixF : FixCandidate :=
  { name := "F", priority := "HIGH", expected_improvement := "20-30% error reduction" }

/-- A cycle in which the implementation collaborator fails on fix F. -/
def cycleImplFails : CycleInput :=
  { fixes := [fixF], implOk := false, testOk := true, decision := "KEEP" }

/-- A cycle in which fix F is implemented and tested with decision KEEP. -/
def cycleKeep : CycleInput :=
  { fixes := [fixF], implOk := true, testOk := true, decision := "KEEP" }

/-- Baseline for the new-error-type check: `url_errors` is exactly 0. -/
def noUrlErrorsBaseline : Metrics :=
  { total_search_ops := 10, titles_found := 3, title_failures := 3,
    model_errors := 1, url_errors := 0 }

/-- Current snapshot in which `url_errors` rose from 0 to 5 while
`model_errors` stayed at its nonzero baseline. -/
def newUrlErrorsCurrent : Metrics :=
  { total_search_ops := 10, titles_found := 3, title_failures := 3,
    model_errors := 1, url_errors := 5 }

/-- The `improvements` list of `detect_plateau` can never reach length 2:
its window `agg_results[-2:]` holds at most two records, hence at most one
adjacent pair. -/
theorem improvements_length_lt_two (l : List IterationRecord)
    (f : IterationRecord × IterationRecord → Option ℚ) :
    ¬ 2 ≤ (((l.drop (l.length - 2)).zip (l.drop (l.length - 2)).tail).filterMap f).length := by
  intro h
  have h1 := List.length_filterMap_le f ((l.drop (l.length - 2)).zip (l.drop (l.length - 2)).tail)
  rw [List.length_zip, List.length_tail, List.length_drop] at h1
  omega

/-- Claim C1: `detect_plateau` is claimed to return true exactly when the
last two aggregation snapshots show an error reduction below 5%.  In the
code the plateau verdict is only issued when `improvements` holds at least
two entries, yet the two-record window yields at most one, so
`detect_plateau` returns false on every input — in particular on the
spec's own plateau example (errors 50 then 48). -/
theorem detect_plateau_never_true (s : RunState) (progress : Option Progress) :
    detect_plateau s progress = false := by
  simp only [detect_plateau]
  split
  · rfl
  · split
    · rfl
    · rw [if_neg (improvements_length_lt_two _ _)]

/-- Claim C2: save-then-load is claimed to return the saved state.
`LoopCoordinator.save_state` writes a wrapper document with keys
`saved_at`, `reason`, `coordinator_state`, while
`LoopCoordinator.load_state` returns the parsed document unchanged: the
loaded document has no `iteration` field (resumption would fail on
`state['iteration']`) and carries the saved state only nested under
`coordinator_state`, so it does not equal the state that was saved.
(`StateManager.load_state` in `state_manager.py`, by contrast, unwraps its
`state` key, witnessing the intended pattern: see
`state_manager_round_trip`.) -/
theorem load_after_save_is_wrapper :
    jlookup (load_state (save_state (freshState "2025-01-01T00:00:00")
        "2025-01-01T00:05:00" "checkpoint")) "iteration" = none ∧
    jlookup (stateToJson (freshState "2025-01-01T00:00:00")) "iteration" =
      some (.num 0) ∧
    jlookup (load_state (save_state (freshState "2025-01-01T00:00:00")
        "2025-01-01T00:05:00" "checkpoint")) "coordinator_state" =
      some (stateToJson (freshState "2025-01-01T00:00:00")) :=
  ⟨rfl, rfl, rfl⟩

/-- The state manager's own pair does round-trip: saving any state document
and loading it back recovers it. -/
theorem state_manager_round_trip (state : JVal) (saved_at reason : String) :
    stateManagerLoad (stateManagerSave state saved_at reason) = state :=
  rfl

/-- One implement/test pass preserves `fixes_successful ⊆ fixes_attempted`:
a fix name enters `fixes_successful` only through a KEEP verdict, which the
loop reaches only after the successful-implementation branch appended the
name to `fixes_attempted`. -/
theorem implement_test_cycle_subset (s : RunState) (c : CycleInput)
    (h : s.fixes_successful ⊆ s.fixes_attempted) :
    (implement_test_cycle s c).fixes_successful ⊆
      (implement_test_cycle s c).fixes_attempted := by
  unfold implement_test_cycle execute_implementation
  cases hp : c.fixes.filter fun f =>
      f.priority == "HIGH" && !(s.fixes_attempted.contains f.name) with
  | nil => simpa using h
  | cons fix_to_implement rest =>
    by_cases himpl : c.implOk
    · by_cases ht : c.testOk
      · simp only [himpl, if_true, ht]
        unfold execute_testing
        by_cases hk : c.decision == "KEEP"
        · simp only [hk, if_true]
          exact List.append_subset.mpr
            ⟨h.trans (List.subset_append_left _ _), List.subset_append_right _ _⟩
        · by_cases hr : c.decision == "ROLLBACK"
          · simp only [hk, if_false, hr, if_true, Bool.false_eq_true]
            exact h.trans (List.subset_append_left _ _)
          · simp only [hk, if_false, hr, Bool.false_eq_true]
            exact h.trans (List.subset_append_left _ _)
      · simp only [himpl, if_true, ht]
        exact h.trans (List.subset_append_left _ _)
    · simp only [himpl, Bool.false_eq_true, if_false]
      exact h

/-- Claim C3 (counterexample): one pass whose implementation collaborator
fails puts F into `fixes_failed` while `fixes_attempted` stays empty, so
`fixes_failed` is not a subset of `fixes_attempted`; since F therefore
remains pending, a second pass can implement and KEEP it, after which F is
in `fixes_successful` and `fixes_failed` at once. -/
theorem fix_bookkeeping_violated :
    ("F" ∈ (runCycles (freshState "t0") [cycleImplFails]).fixes_failed ∧
      "F" ∉ (runCycles (freshState "t0") [cycleImplFails]).fixes_attempted) ∧
    ("F" ∈ (runCycles (freshState "t0") [cycleImplFails, cycleKeep]).fixes_successful ∧
      "F" ∈ (runCycles (freshState "t0") [cycleImplFails, cycleKeep]).fixes_failed) := by
  decide

/-- Claim C3 (amended): after any sequence of implement/test cycles, every
name in `fixes_successful` also appears in `fixes_attempted` (the other two
clauses of the claim fail: an implementation failure records into
`fixes_failed` alone). -/
theorem runCycles_successful_subset (s : RunState) (cs : List CycleInput)
    (h : s.fixes_successful ⊆ s.fixes_attempted) :
    (runCycles s cs).fixes_successful ⊆ (runCycles s cs).fixes_attempted := by
  induction cs generalizing s with
  | nil => exact h
  | cons c rest ih =>
    exact ih (implement_test_cycle s c) (implement_test_cycle_subset s c h)

/-- Witness for `runCycles_successful_subset` at a concrete run: one KEEP
cycle from the fresh state. -/
theorem runCycles_successful_subset_witness :
    (runCycles (freshState "t1") [cycleKeep]).fixes_successful ⊆
      (runCycles (freshState "t1") [cycleKeep]).fixes_attempted :=
  runCycles_successful_subset (freshState "t1") [cycleKeep]
    (by simp [freshState])

/-- Claim C4 (counterexample): a history with two records but a single
aggregation record does not make `calculate_progress` return nothing — the
first and latest aggregation record are then the same record and a progress
snapshot with baseline equal to current is produced. -/
theorem calculate_progress_single_agg :
    (oneAggState.iteration_history.filter fun r => r.phase == "aggregation").length = 1 ∧
    calculate_progress oneAggState =
      some { total_error_reduction := 0, success_rate_improvement := 0,
             iterations := 1, fixes_successful := 0, fixes_failed := 0,
             baseline_errors := 80, current_errors := 80 } := by
  constructor
  · rfl
  · simp only [calculate_progress, oneAggState, freshState]
    norm_num [List.filter, errorSum, mEighty, round2, round_eq,
      List.getLast?, List.getLast]
    rfl

/-- Claim C4 (amended): `calculate_progress` returns nothing exactly when
the history holds fewer than two records in total or no aggregation-phase
record at all; with at least two records and at least one aggregation
record it returns a snapshot. -/
theorem calculate_progress_none_iff (s : RunState) :
    calculate_progress s = none ↔
      s.iteration_history.length < 2 ∨
        (s.iteration_history.filter fun r => r.phase == "aggregation") = [] := by
  simp only [calculate_progress]
  split
  · simp_all
  · rename_i hlen
    cases haggs : s.iteration_history.filter fun r => r.phase == "aggregation" with
    | nil => simp [haggs, hlen]
    | cons a t =>
      have hlast : (a :: t).getLast?.isSome :=
        List.getLast?_isSome.mpr (List.cons_ne_nil a t)
      obtain ⟨b, hb⟩ := Option.isSome_iff_exists.mp hlast
      simp [haggs, hb, hlen]

/-- Claim C5: `should_exit` tests its five conditions in the fixed order
max-iterations, no-more-fixes, plateau, success, regression, first match
winning; whenever the iteration budget is exhausted the result is
`max_iterations_reached` — even when the 90%+ error-reduction success
condition holds at the same time (see the witness, whose state satisfies
both). -/
theorem should_exit_max_iterations_first (s : RunState)
    (h : s.max_iterations ≤ s.iteration) :
    should_exit s =
      ({ s with exit_condition := some "max_iterations_reached" }, true,
        some "Maximum iterations reached") := by
  simp only [should_exit]
  rw [if_pos h]

/-- Witness for `should_exit_max_iterations_first`: in
`budgetAndSuccessState` the iteration budget is exhausted while the two
aggregation snapshots show a 95% error reduction (see
`budget_state_also_meets_success`), and the verdict is still
`max_iterations_reached`. -/
theorem should_exit_max_iterations_first_witness :
    budgetAndSuccessState.max_iterations ≤ budgetAndSuccessState.iteration ∧
    should_exit budgetAndSuccessState =
      ({ budgetAndSuccessState with exit_condition := some "max_iterations_reached" },
        true, some "Maximum iterations reached") :=
  ⟨by decide, should_exit_max_iterations_first budgetAndSuccessState (by decide)⟩

/-- The state of the C5 witness also satisfies the success condition
(`total_error_reduction ≥ 90`): the two snapshots show a 95% reduction. -/
theorem budget_state_also_meets_success :
    (calculate_progress budgetAndSuccessState).map Progress.total_error_reduction =
      some 95 := by
  simp only [calculate_progress, budgetAndSuccessState, freshState]
  norm_num [List.filter, errorSum, mHundred, mFive, round2, round_eq,
    List.getLast?, List.getLast]

/-- Claim C6: with no pending HIGH-priority fix and the iteration budget not
exhausted, `should_exit` is claimed to exit with `all_fixes_attempted`.  In
the code `has_more_fixes` ignores fix candidates and only tests
`iteration < max_iterations`, and the max-iterations check fires first in
exactly the states where that test fails, so the `all_fixes_attempted`
branch is unreachable: the returned reason is always one of the other four
outcomes, and on `earlyState` (iteration 1 of 10, nothing attempted and no
candidates pending) the loop simply continues. -/
theorem should_exit_all_fixes_unreachable :
    (∀ s : RunState, (should_exit s).2.2 ∈
      ([none, some "Maximum iterations reached",
        some "Progress has plateaued - no significant improvement in last 2 iterations",
        some "Target improvement achieved (90%+ error reduction)",
        some "System performance has regressed - stopping"] : List (Option String))) ∧
    should_exit earlyState = (earlyState, false, none) := by
  constructor
  · intro s
    simp only [should_exit]
    split_ifs with h1 h2 h3 h4 h5
    · simp
    · exfalso
      simp only [has_more_fixes, Bool.not_eq_eq_eq_not, Bool.not_true,
        decide_eq_false_iff_not, not_lt] at h2
      omega
    · simp
    · simp
    · simp
    · simp
  · rfl

/-- Claim C7: the no-new-error-types indicator is claimed to fail whenever
any tracked metric that was 0 at baseline is now positive.  Its loop only
inspects `model_errors`: on a comparison where `url_errors` rose from 0 to
5 (and `model_errors` stayed at its nonzero baseline) the check still
reports that no new error types were introduced. -/
theorem check_no_new_errors_ignores_url_errors :
    baseline_value (generate_comparison_report noUrlErrorsBaseline newUrlErrorsCurrent)
      "url_errors" = 0 ∧
    current_value (generate_comparison_report noUrlErrorsBaseline newUrlErrorsCurrent)
      "url_errors" = 5 ∧
    check_no_new_errors
      (generate_comparison_report noUrlErrorsBaseline newUrlErrorsCurrent) = true :=
  ⟨rfl, rfl, rfl⟩

/-- What the check actually tests: only the `model_errors` row. -/
theorem check_no_new_errors_only_model_errors
    (comparison_results : List ComparisonResult) :
    check_no_new_errors comparison_results =
      !(baseline_value comparison_results "model_errors" == 0 &&
        current_value comparison_results "model_errors" > 0) := by
  simp [check_no_new_errors]

/-- Claim C8: the KEEP/MONITOR/ROLLBACK decision rule of `evaluate_fix` is
claimed to apply to every evaluation.  No evaluation ever reaches it: the
success-indicator loop calls each check with `indicator.get('threshold', 0)`
as a positional argument, and the second check (`check_no_new_errors`)
declares no such parameter, so every call of `evaluate_fix` raises
`TypeError` before any decision is produced. -/
theorem evaluate_fix_always_raises (comparison_results : List ComparisonResult)
    (overall : OverallImprovement) (fix_name : String) :
    evaluate_fix comparison_results overall fix_name =
      .error "TypeError: check method takes no positional argument" :=
  rfl

/-- Claim C10: `evaluate_fix` is claimed to always return a success rate in
0/25/50/75/100 and to return MONITOR exactly on two-of-four successes with
no failure indicator.  It never returns any result dictionary at all: the
mis-called second success check raises before the rate is computed. -/
theorem evaluate_fix_never_returns (comparison_results : List ComparisonResult)
    (overall : OverallImprovement) (fix_name : String) :
    (evaluate_fix comparison_results overall fix_name).toOption = none :=
  rfl

/-- Rounding a zero percentage yields zero. -/
theorem round2_zero : round2 0 = 0 := by
  norm_num [round2]

/-- Claim C9: with a zero baseline error sum the error reduction is exactly
0 — in `calculate_improvement`, in `calculate_overall_improvement`, and in
`calculate_progress` (whose `baseline_errors` output is the first
aggregation snapshot's error sum). -/
theorem zero_baseline_error_reduction :
    (∀ baseline current : Metrics, errorSum baseline = 0 →
      (calculate_improvement baseline current).error_reduction = 0) ∧
    (∀ baseline current : Metrics, errorSum baseline = 0 →
      (calculate_overall_improvement baseline current).error_reduction = 0) ∧
    (∀ (s : RunState) (p : Progress), calculate_progress s = some p →
      p.baseline_errors = 0 → p.total_error_reduction = 0) := by
  refine ⟨?_, ?_, ?_⟩
  · intro baseline current h
    simp [calculate_improvement, h, round2_zero]
  · intro baseline current h
    simp [calculate_overall_improvement, h, round2_zero]
  · intro s p hp hb
    simp only [calculate_progress] at hp
    split at hp
    · exact Option.noConfusion hp
    · split at hp
      · rename_i first_agg latest_agg heq1 heq2
        injection hp with hp
        subst hp
        simp only at hb
        simp [hb, round2_zero]
      · exact Option.noConfusion hp

/-- Witness for `zero_baseline_error_reduction`: the all-zero snapshot pair
and the all-zero two-aggregation run state. -/
theorem zero_baseline_error_reduction_witness :
    (calculate_improvement mZero mZero).error_reduction = 0 ∧
    (calculate_overall_improvement mZero mZero).error_reduction = 0 ∧
    ({ total_error_reduction := 0, success_rate_improvement := 0, iterations := 2,
       fixes_successful := 0, fixes_failed := 0, baseline_errors := 0,
       current_errors := 0 } : Progress).total_error_reduction = 0 :=
  ⟨zero_baseline_error_reduction.1 mZero mZero rfl,
   zero_baseline_error_reduction.2.1 mZero mZero rfl,
   zero_baseline_error_reduction.2.2 zeroErrorState
     { total_error_reduction := 0, success_rate_improvement := 0, iterations := 2,
       fixes_successful := 0, fixes_failed := 0, baseline_errors := 0,
       current_errors := 0 }
     (by simp only [calculate_progress, zeroErrorState, freshState]
         norm_num [List.filter, errorSum, mZero, round2_zero,
           List.getLast?, List.getLast])
     rfl⟩
